import Mathlib

/-
Verification of the Comet experiment-logger adapter
(`src/lightning/pytorch/loggers/comet.py`, class `CometLogger`).

The adapter is shallowly embedded: remote-client effects are recorded as an
explicit trace of `ClientCall`s, Python dictionaries are association lists
held in an explicit `Store` (so in-place mutation and `.copy()` are visible),
and the remote tracking client (`comet_ml`) is an abstract `Client` value
returning the started session handle.
-/

set_option linter.unusedVariables false

/-! ## Basic values -/

/-- The resolved operating mode of the adapter (`self.mode`). -/
inductive Mode
  | online
  | offline
deriving DecidableEq, Repr

/-- Whether the mode is `online` (embeds the Python comparison
`self.mode == "online"` on line 276). -/
def Mode.isOnline : Mode → Bool
  | .online => true
  | .offline => false

/-- A metric value: a plain number, or a tensor-like value carrying the
flags this adapter manipulates — whether it resides in host (CPU) memory
and whether it is still attached to an autograd graph. -/
inductive MVal
  | num (x : Int)
  | tensor (data : Int) (onCpu : Bool) (requiresGrad : Bool)
deriving DecidableEq, Repr

/-- Embeds `Tensor.cpu()`: moves the tensor to host memory. -/
def MVal.cpu : MVal → MVal
  | .num x => .num x
  | .tensor d _ g => .tensor d true g

/-- Embeds `Tensor.detach()`: detaches the tensor from the autograd graph. -/
def MVal.detach : MVal → MVal
  | .num x => .num x
  | .tensor d c _ => .tensor d c false

/-- Embeds `isinstance(val, Tensor)`. -/
def MVal.isTensor : MVal → Bool
  | .num _ => false
  | .tensor _ _ _ => true

/-- The claim-side predicate "detached, host-memory value": a plain number,
or a tensor that is on CPU and carries no autograd graph. -/
def MVal.hostDetached : MVal → Bool
  | .num _ => true
  | .tensor _ c g => c && !g

/-! ## Python dictionaries and the store

A Python dict of metrics is an association list with (in any run of the
source) pairwise-distinct keys.  Dicts are heap objects: `log_metrics`
receives a reference to the caller's dict and works on a `.copy()`, so we
model a store of dicts addressed by natural numbers to make mutation (or
its absence) observable. -/

abbrev PyDict := List (String × MVal)

/-- Embeds Python `d[key]` lookup (first matching key). -/
def dictLookup : PyDict → String → Option MVal
  | [], _ => none
  | (k, v) :: rest, key => if k = key then some v else dictLookup rest key

/-- Embeds `d.pop(key, None)` on a unique-key dict: returns the stored value
(or `none`) together with the dict with that key removed. -/
def dictPop (d : PyDict) (key : String) : Option MVal × PyDict :=
  (dictLookup d key, d.filter (fun kv => kv.1 ≠ key))

/-- Embeds the loop on lines 296-298: every tensor value is replaced by
`val.cpu().detach()`; non-tensors are left alone (per-value action). -/
def detachVal (v : MVal) : MVal :=
  if v.isTensor then v.cpu.detach else v

/-- Embeds the whole loop `for key, val in d.items(): d[key] = detachVal val`
on a unique-key dict: a value-wise map. -/
def cpuDetachAll (d : PyDict) : PyDict :=
  d.map (fun kv => (kv.1, detachVal kv.2))

/-- The store of dict objects; a dict reference is an index into it. -/
abbrev Store := List PyDict

/-- Reads the dict at reference `r`. -/
def Store.get (σ : Store) (r : Nat) : PyDict :=
  σ.getD r []

/-- Overwrites the dict at reference `r` (in-place mutation). -/
def Store.set (σ : Store) (r : Nat) (d : PyDict) : Store :=
  List.set σ r d

/-- Allocates a fresh dict object (used for `metrics.copy()`), returning the
new store and the fresh reference. -/
def Store.alloc (σ : Store) (d : PyDict) : Store × Nat :=
  (σ ++ [d], σ.length)

/-! ## Python `or` on strings

Python `x or y` returns `x` unless `x` is falsy (`None` or the empty
string), in which case it returns `y`.  Lines 225 and 245 of the source
resolve the api key and the experiment key with such chains. -/

/-- Embeds `x or y` where both sides are optional strings. -/
def pyOr (a b : Option String) : Option String :=
  match a with
  | some s => if s = "" then b else some s
  | none => b

/-- Embeds `x or y` where the right side is a plain string, so the result is
a plain string. -/
def pyOrS (a : Option String) (b : String) : String :=
  match a with
  | some s => if s = "" then b else s
  | none => b

/-! ## The remote tracking client -/

/-- A session handle (`comet_ml` experiment object) as seen by the adapter:
its unique key (`.id`), its project name and its liveness flag (`.alive`). -/
structure Experiment where
  id : String
  project_name : Option String
  alive : Bool
deriving DecidableEq, Repr

/-- Embeds `comet_ml.ExperimentConfig(offline_directory=..., name=...,
**self._kwargs)` built on lines 266-270. -/
structure ExperimentConfig where
  offline_directory : Option String
  name : Option String
  kwargs : List (String × String)
deriving DecidableEq, Repr

/-- The arguments of the `comet_ml.start(...)` call on lines 272-278. -/
structure StartArgs where
  api_key : Option String
  project : Option String
  experiment_key : Option String
  online : Bool
  experiment_config : ExperimentConfig
deriving DecidableEq, Repr

/-- The remote tracking client: its observable behaviour is what experiment
handle `comet_ml.start` returns for given arguments. -/
structure Client where
  start : StartArgs → Experiment

/-- The documented contract of the vendor's session-start capability: when an
experiment key is supplied, the returned handle carries exactly that key, and
a freshly started handle is alive. -/
def Client.Honest (c : Client) : Prop :=
  (∀ a k, a.experiment_key = some k → (c.start a).id = k) ∧
  (∀ a, (c.start a).alive = true)

/-- What the `experiment` property hands back to the caller: a real handle on
the primary process, or the dummy object the rank gate substitutes elsewhere. -/
inductive ExpHandle
  | real (e : Experiment)
  | dummy
deriving DecidableEq, Repr

/-- The key of the handed-back handle, when it is a real one. -/
def ExpHandle.idOf : ExpHandle → Option String
  | .real e => some e.id
  | .dummy => none

/-- One observable call into the remote client.  Adapter operations return
the list of such calls they perform, in order. -/
inductive ClientCall
  | start (args : StartArgs)
  | logOther (expId : String) (key value : String)
  | logParameters (expId : String) (params : List (String × String))
  | logMetrics (expId : String) (metrics : PyDict) (step : Option Int) (epoch : Option MVal)
  | setModelGraph (expId : String) (model : String)
  | endExp (expId : String)
deriving DecidableEq, Repr

/-! ## Adapter state and construction -/

/-- The attribute state of a `CometLogger` instance.  `_experiment_key` is
optional because `__getstate__` can write `None` into it.  The field
`api_key` models attribute presence: the bare annotation `self.api_key:
str` on line 210 creates no attribute, and only the two credential
branches of the constructor assign it (always to a string), so `some s`
means the attribute is assigned with value `s` and `none` means the
attribute does not exist on the object (the directory-only branch, lines
235-237) — reading it then raises `AttributeError`, see
`CometLogger.experimentRun`.  The source attribute `self._prefix` is named
`pfx` here. -/
structure CometLogger where
  api_key : Option String
  mode : Mode
  _save_dir : Option String
  _project_name : Option String
  _experiment_key : Option String
  _experiment_name : Option String
  pfx : String
  _kwargs : List (String × String)
  _experiment : Option Experiment
deriving DecidableEq, Repr

/-- Ambient inputs read by `__init__`: whether the `comet_ml` requirement is
satisfied, the api key that `comet_ml.config.get_api_key` resolves from the
environment or the config file, the `COMET_EXPERIMENT_KEY` environment
variable, and the value `comet_ml.generate_guid()` would produce. -/
structure InitEnv where
  comet_available : Bool
  config_api_key : Option String
  env_experiment_key : Option String
  generated_guid : String
deriving DecidableEq, Repr

/-- The constructor arguments of `CometLogger.__init__` (the source's
`prefix` argument is named `pfx`). -/
structure InitArgs where
  api_key : Option String
  save_dir : Option String
  project_name : Option String
  experiment_name : Option String
  experiment_key : Option String
  offline : Bool
  pfx : String
  kwargs : List (String × String)
deriving DecidableEq, Repr

/-- The two exceptions `__init__` can raise. -/
inductive InitError
  | moduleNotFound
  | misconfiguration
deriving DecidableEq, Repr

/-- Embeds `CometLogger.__init__` (lines 195-248).  The
`COMET_DISABLE_AUTO_LOGGING` environment mutation on line 217 has no
observable effect inside this adapter and is not modelled. -/
def CometLogger.init (env : InitEnv) (a : InitArgs) : Except InitError CometLogger :=
  if env.comet_available = false then .error .moduleNotFound
  else
    let api_key := pyOr a.api_key env.config_api_key
    let key := pyOrS a.experiment_key (pyOrS env.env_experiment_key env.generated_guid)
    let base : Mode → Option String → Option String → CometLogger := fun m k sd =>
      { api_key := k
        mode := m
        _save_dir := sd
        _project_name := a.project_name
        _experiment_key := some key
        _experiment_name := a.experiment_name
        pfx := a.pfx
        _kwargs := a.kwargs
        _experiment := none }
    if api_key.isSome && a.save_dir.isSome then
      .ok (base (if a.offline then Mode.offline else Mode.online) api_key a.save_dir)
    else if api_key.isSome then
      .ok (base Mode.online api_key none)
    else if a.save_dir.isSome then
      .ok (base Mode.offline none a.save_dir)
    else
      .error .misconfiguration

/-! ## The `experiment` accessor -/

/-- The `comet_ml.start` arguments the accessor assembles from the adapter
state (lines 266-278).  The `api_key` component is the value of the
`self.api_key` attribute read on line 273; that attribute exists only on
states where a constructor credential branch assigned it (`lg.api_key =
some _`), and `CometLogger.experimentRun` below performs the read with its
`AttributeError` path before this record can be formed — this record
therefore describes the call on the success path only. -/
def startArgsOf (lg : CometLogger) : StartArgs :=
  { api_key := lg.api_key
    project := lg._project_name
    experiment_key := lg._experiment_key
    online := lg.mode.isOnline
    experiment_config :=
      { offline_directory := lg._save_dir
        name := lg._experiment_name
        kwargs := lg._kwargs } }

/-- The session-creation tail of the accessor (lines 264-282): start a new
experiment, tag it with the provenance marker via `log_other`, cache it. -/
def CometLogger.startExperiment (c : Client) (lg : CometLogger) :
    CometLogger × ExpHandle × List ClientCall :=
  let args := startArgsOf lg
  let e := c.start args
  ({ lg with _experiment := some e },
   ExpHandle.real e,
   [ClientCall.start args,
    ClientCall.logOther e.id "Created from" "pytorch-lightning"])

/-- Embeds the success path of the `experiment` property (lines 250-282):
its behaviour on the paths that never reach the `self.api_key` attribute
read on line 273 (cached live handle, non-primary rank) and on adapter
states where that attribute is assigned.  On a directory-only adapter
(`lg.api_key = none`, attribute never assigned) the source instead raises
`AttributeError` at that read; the full embedding carrying this error path
is `CometLogger.experimentRun` below, and `experimentRun_agrees` proves the
two agree everywhere outside it.  The `rank_zero_experiment` decorator is
not under `src/`; modelled from the spec: on a non-primary process the
accessor is a no-op returning a dummy handle, never initiating network
activity. -/
def CometLogger.experiment (c : Client) (rank : Nat) (lg : CometLogger) :
    CometLogger × ExpHandle × List ClientCall :=
  if rank ≠ 0 then (lg, ExpHandle.dummy, [])
  else
    match lg._experiment with
    | some e =>
      if e.alive then (lg, ExpHandle.real e, [])
      else CometLogger.startExperiment c lg
    | none => CometLogger.startExperiment c lg

/-- A Python exception escaping the accessor. -/
inductive PyError
  | attributeError (attr : String)
deriving DecidableEq, Repr

/-- The session-creation tail of the accessor with the attribute read made
explicit: evaluating the argument `api_key=self.api_key` on line 273 raises
`AttributeError` when the attribute was never assigned (the directory-only
constructor branch), before any client call is made; otherwise the
`comet_ml.start` call proceeds as in `CometLogger.startExperiment`. -/
def CometLogger.startExperimentRun (c : Client) (lg : CometLogger) :
    Except PyError (CometLogger × ExpHandle × List ClientCall) :=
  match lg.api_key with
  | none => Except.error (PyError.attributeError "api_key")
  | some _ => Except.ok (CometLogger.startExperiment c lg)

/-- Embeds the `experiment` property (lines 250-282) in full, including the
error path: when neither the cached-live early return (line 261) nor the
non-primary gate applies, the accessor reads `self.api_key` (line 273) and
raises `AttributeError` on states where the directory-only constructor
branch left the attribute unassigned. -/
def CometLogger.experimentRun (c : Client) (rank : Nat) (lg : CometLogger) :
    Except PyError (CometLogger × ExpHandle × List ClientCall) :=
  if rank ≠ 0 then Except.ok (lg, ExpHandle.dummy, [])
  else
    match lg._experiment with
    | some e =>
      if e.alive then Except.ok (lg, ExpHandle.real e, [])
      else CometLogger.startExperimentRun c lg
    | none => CometLogger.startExperimentRun c lg

/-- The two accessor embeddings agree whenever the credential attribute is
assigned, on non-primary ranks, and whenever a live handle is cached — that
is, everywhere except the `AttributeError` path of a directory-only adapter
on the primary process. -/
lemma experimentRun_agrees (c : Client) (rank : Nat) (lg : CometLogger) :
    (∀ k, lg.api_key = some k →
      CometLogger.experimentRun c rank lg =
        Except.ok (CometLogger.experiment c rank lg)) ∧
    (rank ≠ 0 →
      CometLogger.experimentRun c rank lg =
        Except.ok (CometLogger.experiment c rank lg)) ∧
    (∀ e, lg._experiment = some e → e.alive = true →
      CometLogger.experimentRun c rank lg =
        Except.ok (CometLogger.experiment c rank lg)) := by
  refine ⟨?_, ?_, ?_⟩
  · intro k hk
    rw [CometLogger.experimentRun, CometLogger.experiment]
    by_cases hr : rank ≠ 0
    · rw [if_pos hr, if_pos hr]
    · rw [if_neg hr, if_neg hr]
      cases lg._experiment with
      | none => rw [CometLogger.startExperimentRun, hk]
      | some e =>
        cases he : e.alive <;>
          simp [he, CometLogger.startExperimentRun, hk]
  · intro hr
    rw [CometLogger.experimentRun, CometLogger.experiment, if_pos hr, if_pos hr]
  · intro e he halive
    rw [CometLogger.experimentRun, CometLogger.experiment]
    by_cases hr : rank ≠ 0
    · rw [if_pos hr, if_pos hr]
    · rw [if_neg hr, if_neg hr, he]
      simp [halive]

/-! ## Logging operations -/

/-- Hyperparameters: a mapping, or an argparse-style namespace object. -/
inductive HParams
  | dict (kvs : List (String × String))
  | names (kvs : List (String × String))
deriving DecidableEq, Repr

/-- Modelled from the spec: `_convert_params` of
`lightning.fabric.utilities.logger` (not under `src/`) accepts a mapping or
an argparse-style namespace and returns a mapping, converting the namespace
to its underlying mapping first. -/
def _convert_params : HParams → List (String × String)
  | HParams.dict kvs => kvs
  | HParams.names kvs => kvs

/-- Embeds `log_hyperparams` (lines 284-288).  The `rank_zero_only`
decorator is not under `src/`; modelled from the spec: on a non-primary
process the call is a silent no-op. -/
def CometLogger.log_hyperparams (c : Client) (rank : Nat) (lg : CometLogger)
    (params : HParams) : CometLogger × List ClientCall :=
  if rank ≠ 0 then (lg, [])
  else
    let p := _convert_params params
    match CometLogger.experiment c rank lg with
    | (lg2, ExpHandle.real e, t) => (lg2, t ++ [ClientCall.logParameters e.id p])
    | (lg2, ExpHandle.dummy, t) => (lg2, t)

/-- The metric-name join character (`LOGGER_JOIN_CHAR`, line 193). -/
def LOGGER_JOIN_CHAR : String := "-"

/-- Modelled from the spec: `_add_prefix` of
`lightning.fabric.utilities.logger` (not under `src/`) applies the
configured key prefix to metric names with the given join character,
leaving the mapping unchanged when the prefix is empty.  It returns a fresh
dict (a comprehension), never mutating its argument. -/
def add_pfx (d : PyDict) (p sep : String) : PyDict :=
  if p = "" then d else d.map (fun kv => (p ++ sep ++ kv.1, kv.2))

/-- Embeds `log_metrics` (lines 290-302).  `metricsRef` is the reference to
the caller's dict in the store.  The body runs only on the primary process
(`rank_zero_only`, modelled from the spec); the `assert rank_zero_only.rank
== 0` on line 293 therefore always passes when the body runs.  Line by
line: copy the caller's dict, rewrite tensor values to `val.cpu().detach()`
in place on the copy, `pop` the reserved `"epoch"` key from the copy, bind
a fresh prefixed dict, then send it with the step and the popped epoch. -/
def CometLogger.log_metrics (c : Client) (rank : Nat) (lg : CometLogger)
    (σ : Store) (metricsRef : Nat) (step : Option Int) :
    CometLogger × Store × List ClientCall :=
  if rank ≠ 0 then (lg, σ, [])
  else
    let (σ1, copyRef) := Store.alloc σ (Store.get σ metricsRef)
    let σ2 := Store.set σ1 copyRef (cpuDetachAll (Store.get σ1 copyRef))
    let (epoch, popped) := dictPop (Store.get σ2 copyRef) "epoch"
    let σ3 := Store.set σ2 copyRef popped
    let sent := add_pfx (Store.get σ3 copyRef) lg.pfx LOGGER_JOIN_CHAR
    match CometLogger.experiment c rank lg with
    | (lg2, ExpHandle.real e, t) =>
      (lg2, σ3, t ++ [ClientCall.logMetrics e.id sent step epoch])
    | (lg2, ExpHandle.dummy, t) => (lg2, σ3, t)

/-- Embeds `reset_experiment` (lines 304-305). -/
def CometLogger.reset_experiment (lg : CometLogger) : CometLogger :=
  { lg with _experiment := none }

/-- Embeds `finalize` (lines 307-323): a no-op when no experiment handle is
cached; otherwise `self.experiment.end()` (note: through the accessor) then
`reset_experiment()`.  `rank_zero_only` modelled from the spec as for the
other operations. -/
def CometLogger.finalize (c : Client) (rank : Nat) (lg : CometLogger)
    (status : String) : CometLogger × List ClientCall :=
  if rank ≠ 0 then (lg, [])
  else
    match lg._experiment with
    | none => (lg, [])
    | some _ =>
      match CometLogger.experiment c rank lg with
      | (lg2, ExpHandle.real e, t) =>
        (CometLogger.reset_experiment lg2, t ++ [ClientCall.endExp e.id])
      | (lg2, ExpHandle.dummy, t) => (lg2, t)

/-! ## Read-only properties and serialization -/

/-- Embeds the `save_dir` property (lines 325-334). -/
def CometLogger.save_dir (lg : CometLogger) : Option String :=
  lg._save_dir

/-- Embeds the `name` property (lines 336-352). -/
def CometLogger.name (lg : CometLogger) : String :=
  match lg._experiment.bind (fun e => e.project_name) with
  | some pn => pn
  | none =>
    match lg._project_name with
    | some p => p
    | none => "comet-default"

/-- Embeds the `version` property (lines 354-365).  The source annotates the
return type `str`, but after unpickling `self._experiment_key` can be
`None`, so the embedded result is optional. -/
def CometLogger.version (lg : CometLogger) : Option String :=
  match lg._experiment with
  | some e => some e.id
  | none => lg._experiment_key

/-- Embeds `__getstate__` (lines 367-379): copy the attribute dict, write
`self._experiment.id` into `_experiment_key` when an experiment object
exists and `None` otherwise, and null the experiment handle.  The class
defines no custom `__setstate__`, so unpickling restores exactly this
record; the round trip serialize-then-deserialize is `getstate` itself. -/
def CometLogger.getstate (lg : CometLogger) : CometLogger :=
  { lg with
    _experiment_key :=
      match lg._experiment with
      | some e => some e.id
      | none => none
    _experiment := none }

/-- Embeds `log_graph` (lines 381-384).  Note: unlike the other mutating
operations, the source applies no `rank_zero_only` decorator here; the only
guard is the cached handle being present. -/
def CometLogger.log_graph (lg : CometLogger) (model : String)
    (input_array : Option MVal) : CometLogger × List ClientCall :=
  match lg._experiment with
  | some e => (lg, [ClientCall.setModelGraph e.id model])
  | none => (lg, [])

/-! ## Reachable adapter states

The states an adapter living in a process of global rank `rank` can be in:
freshly constructed, received by unpickling a snapshot (produced anywhere),
or the result of any adapter operation run at this rank. -/

inductive Reachable (c : Client) (rank : Nat) : CometLogger → Prop
  | ofInit (env : InitEnv) (a : InitArgs) (lg : CometLogger) :
      CometLogger.init env a = Except.ok lg → Reachable c rank lg
  | ofUnpickle (lg : CometLogger) : Reachable c rank (CometLogger.getstate lg)
  | ofExperiment (lg : CometLogger) : Reachable c rank lg →
      Reachable c rank (CometLogger.experiment c rank lg).1
  | ofReset (lg : CometLogger) : Reachable c rank lg →
      Reachable c rank (CometLogger.reset_experiment lg)
  | ofHyper (lg : CometLogger) (p : HParams) : Reachable c rank lg →
      Reachable c rank (CometLogger.log_hyperparams c rank lg p).1
  | ofMetrics (lg : CometLogger) (σ : Store) (r : Nat) (step : Option Int) :
      Reachable c rank lg →
      Reachable c rank (CometLogger.log_metrics c rank lg σ r step).1
  | ofGraph (lg : CometLogger) (m : String) (ia : Option MVal) :
      Reachable c rank lg →
      Reachable c rank (CometLogger.log_graph lg m ia).1
  | ofFinalize (lg : CometLogger) (s : String) : Reachable c rank lg →
      Reachable c rank (CometLogger.finalize c rank lg s).1

/-! ## Concrete values used by witnesses and counterexamples -/

/-- A client obeying the documented start-session contract: the returned
handle carries the supplied key (or a client-generated one when no key is
supplied) and is alive. -/
def demoClient : Client :=
  { start := fun a =>
      { id :=
          match a.experiment_key with
          | some k => k
          | none => "client-generated-guid"
        project_name := a.project
        alive := true } }

/-- The demo client obeys the vendor contract. -/
theorem demoClient_honest : Client.Honest demoClient := by
  constructor
  · intro a k hk
    simp [demoClient, hk]
  · intro a
    simp [demoClient]

/-- An ambient environment with nothing resolvable. -/
def envNone : InitEnv :=
  { comet_available := true
    config_api_key := none
    env_experiment_key := none
    generated_guid := "guid-0" }

/-- Constructor arguments with every optional argument absent. -/
def argsNone : InitArgs :=
  { api_key := none
    save_dir := none
    project_name := none
    experiment_name := none
    experiment_key := none
    offline := false
    pfx := ""
    kwargs := [] }


/-! ## Claim C2: neither credential nor directory resolvable -/

/-- C2: for every combination of the remaining constructor arguments, if no
api key is supplied, none is resolvable from the environment/config storage,
and no save directory is supplied, construction raises the configuration
error (`MisconfigurationException`). -/
theorem C2_no_credential_no_dir_raises (env : InitEnv) (a : InitArgs)
    (havail : env.comet_available = true)
    (hk : a.api_key = none) (hc : env.config_api_key = none)
    (hd : a.save_dir = none) :
    CometLogger.init env a = Except.error InitError.misconfiguration := by
  simp [CometLogger.init, pyOr, havail, hk, hc, hd]

theorem C2_witness :
    envNone.comet_available = true ∧ argsNone.api_key = none ∧
    envNone.config_api_key = none ∧ argsNone.save_dir = none ∧
    CometLogger.init envNone argsNone = Except.error InitError.misconfiguration :=
  ⟨rfl, rfl, rfl, rfl,
   C2_no_credential_no_dir_raises envNone argsNone rfl rfl rfl rfl⟩

/-! ## Claim C3: resolved mode -/

/-- An environment whose config storage resolves a credential. -/
def envCred : InitEnv :=
  { envNone with config_api_key := some "KEY" }

/-- Constructor arguments supplying only a save directory. -/
def argsDir : InitArgs :=
  { argsNone with save_dir := some "/tmp/logs" }

/-- The adapter built from `envCred` and `argsDir` (credential resolved from
config storage, directory supplied, `offline` flag unset). -/
def lgBoth : CometLogger :=
  { api_key := some "KEY", mode := Mode.online, _save_dir := some "/tmp/logs",
    _project_name := none, _experiment_key := some "guid-0",
    _experiment_name := none, pfx := "", _kwargs := [], _experiment := none }

/-- C3: on a successful construction the resolved mode is exactly: offline
when no credential resolves (only the directory was supplied); online when
no directory was supplied (only the credential resolves); online when both
are present and the `offline` flag is not set; offline when both are
present and the flag is set. -/
theorem C3_mode_resolution (env : InitEnv) (a : InitArgs) (lg : CometLogger)
    (h : CometLogger.init env a = Except.ok lg) :
    (pyOr a.api_key env.config_api_key = none → lg.mode = Mode.offline) ∧
    (a.save_dir = none → lg.mode = Mode.online) ∧
    ((pyOr a.api_key env.config_api_key).isSome = true → a.save_dir.isSome = true →
      a.offline = false → lg.mode = Mode.online) ∧
    ((pyOr a.api_key env.config_api_key).isSome = true → a.save_dir.isSome = true →
      a.offline = true → lg.mode = Mode.offline) := by
  cases hav : env.comet_available with
  | false => simp [CometLogger.init, hav] at h
  | true =>
    cases hk : pyOr a.api_key env.config_api_key <;>
      cases hs : a.save_dir <;>
        cases hoff : a.offline <;>
          simp [CometLogger.init, hav, hk, hs, hoff] at h <;>
            simp [← h, hk, hs, hoff]

theorem C3_witness :
    CometLogger.init envCred argsDir = Except.ok lgBoth ∧ lgBoth.mode = Mode.online := by
  have h : CometLogger.init envCred argsDir = Except.ok lgBoth := rfl
  exact ⟨h, (C3_mode_resolution envCred argsDir lgBoth h).2.2.1 rfl rfl rfl⟩

/-! ## Claim C4: session-key resolution priority -/

/-- An environment carrying a pre-assigned session key. -/
def envC4a : InitEnv :=
  { comet_available := true, config_api_key := none,
    env_experiment_key := some "env-key", generated_guid := "guid-1" }

/-- An environment with no pre-assigned session key, first generated guid. -/
def envC4b : InitEnv :=
  { comet_available := true, config_api_key := none,
    env_experiment_key := none, generated_guid := "guid-1" }

/-- An environment with no pre-assigned session key, second generated guid. -/
def envC4c : InitEnv :=
  { comet_available := true, config_api_key := none,
    env_experiment_key := none, generated_guid := "guid-2" }

/-- Constructor arguments passing an explicit (empty-string) experiment key. -/
def argsC4 : InitArgs :=
  { argsNone with api_key := some "KEY", experiment_key := some "" }

/-- C4 as stated is false: with the explicit argument `experiment_key = ""`,
the explicit argument does not win over the environment variable (the
resolved key is `"env-key"`, not `""`), and two constructions with the same
explicit key resolve to different keys (`"guid-1"` and `"guid-2"`) — Python
`or` treats the empty string as absent. -/
theorem C4_counterexample :
    argsC4.experiment_key = some "" ∧
    (CometLogger.init envC4a argsC4).map CometLogger._experiment_key =
      Except.ok (some "env-key") ∧
    (CometLogger.init envC4b argsC4).map CometLogger._experiment_key =
      Except.ok (some "guid-1") ∧
    (CometLogger.init envC4c argsC4).map CometLogger._experiment_key =
      Except.ok (some "guid-2") :=
  ⟨rfl, rfl, rfl, rfl⟩

/-- C4 (amended): the session key is resolved with priority explicit
argument → environment variable → generated identifier, where an empty
string counts as absent (Python truthiness); constructing twice with the
same non-empty explicit key yields the same resolved key. -/
theorem C4_key_priority (env : InitEnv) (a : InitArgs) (lg : CometLogger)
    (h : CometLogger.init env a = Except.ok lg) :
    (∀ k, a.experiment_key = some k → k ≠ "" → lg._experiment_key = some k) ∧
    ((a.experiment_key = none ∨ a.experiment_key = some "") →
      ∀ e, env.env_experiment_key = some e → e ≠ "" →
        lg._experiment_key = some e) ∧
    ((a.experiment_key = none ∨ a.experiment_key = some "") →
      (env.env_experiment_key = none ∨ env.env_experiment_key = some "") →
      lg._experiment_key = some env.generated_guid) ∧
    (∀ env2 a2 lg2, CometLogger.init env2 a2 = Except.ok lg2 →
      ∀ k, k ≠ "" → a.experiment_key = some k → a2.experiment_key = some k →
        lg._experiment_key = lg2._experiment_key) := by
  have hkey : ∀ env' a' lg', CometLogger.init env' a' = Except.ok lg' →
      lg'._experiment_key =
        some (pyOrS a'.experiment_key
          (pyOrS env'.env_experiment_key env'.generated_guid)) := by
    intro env' a' lg' h'
    cases hav : env'.comet_available with
    | false => simp [CometLogger.init, hav] at h'
    | true =>
      cases hk : (pyOr a'.api_key env'.config_api_key).isSome <;>
        cases hs : a'.save_dir.isSome <;>
          simp [CometLogger.init, hav, hk, hs] at h' <;>
            simp [← h']
  refine ⟨?_, ?_, ?_, ?_⟩
  · intro k hk hne
    rw [hkey env a lg h, hk]
    simp [pyOrS, hne]
  · intro habsent e he hne
    rw [hkey env a lg h, he]
    rcases habsent with h0 | h0 <;> simp [h0, pyOrS, hne]
  · intro habsent henv
    rw [hkey env a lg h]
    rcases habsent with h0 | h0 <;> rcases henv with h1 | h1 <;>
      simp [h0, h1, pyOrS]
  · intro env2 a2 lg2 h2 k hne hk1 hk2
    rw [hkey env a lg h, hkey env2 a2 lg2 h2, hk1, hk2]
    simp [pyOrS, hne]

/-- An environment with no pre-assigned session key, a third generated guid. -/
def envC4d : InitEnv :=
  { comet_available := true, config_api_key := none,
    env_experiment_key := none, generated_guid := "guid-3" }

/-- Constructor arguments passing the explicit non-empty key `"my-key"`. -/
def argsC4k : InitArgs :=
  { argsNone with api_key := some "KEY", experiment_key := some "my-key" }

theorem C4_witness :
    CometLogger.init envC4a argsC4k =
      Except.ok { lgBoth with _save_dir := none, _experiment_key := some "my-key" } ∧
    CometLogger.init envC4d argsC4k =
      Except.ok { lgBoth with _save_dir := none, _experiment_key := some "my-key" } ∧
    (some "my-key" : Option String) = some "my-key" := by
  have h1 : CometLogger.init envC4a argsC4k =
      Except.ok { lgBoth with _save_dir := none, _experiment_key := some "my-key" } := rfl
  have h2 : CometLogger.init envC4d argsC4k =
      Except.ok { lgBoth with _save_dir := none, _experiment_key := some "my-key" } := rfl
  refine ⟨h1, h2, ?_⟩
  exact (C4_key_priority envC4a argsC4k _ h1).1 "my-key" rfl (by decide) ▸ rfl

/-! ## Claim C1: serialization round trip -/

/-- An adapter with resolved key `"k0"` and no live session handle. -/
def lgNoSession : CometLogger :=
  { api_key := some "KEY", mode := Mode.online, _save_dir := none,
    _project_name := none, _experiment_key := some "k0",
    _experiment_name := none, pfx := "", _kwargs := [], _experiment := none }

/-- C1 as stated is false: serializing `lgNoSession` (no live session, key
resolved to `"k0"`) nulls the stored key, so the one access to the
`experiment` accessor after deserialization starts a session with
`experiment_key = None` whose key is client-generated
(`"client-generated-guid"`), not the key `"k0"` resolved at serialization
time.  The deserialized adapter's cached handle is indeed empty. -/
theorem C1_counterexample :
    lgNoSession._experiment = none ∧
    lgNoSession._experiment_key = some "k0" ∧
    (CometLogger.getstate lgNoSession)._experiment = none ∧
    (CometLogger.getstate lgNoSession)._experiment_key = none ∧
    ExpHandle.idOf
        (CometLogger.experiment demoClient 0 (CometLogger.getstate lgNoSession)).2.1 =
      some "client-generated-guid" ∧
    some "client-generated-guid" ≠ (some "k0" : Option String) :=
  ⟨rfl, rfl, rfl, rfl, rfl, by decide⟩

/-- C1 (amended): the snapshot produced by `__getstate__` always has an
empty cached handle; when no live session handle exists at serialization
time it also nulls the session-key field (rather than keeping the key the
adapter had resolved), so the key is not preserved; when a live session
handle does exist, the snapshot records that session's key, and one access
to the `experiment` accessor on the deserialized adapter (under a client
honouring the start-session contract) produces a session whose key equals
it. -/
theorem C1_getstate_roundtrip (c : Client) (hc : Client.Honest c)
    (lg : CometLogger) :
    ((CometLogger.getstate lg)._experiment = none) ∧
    (lg._experiment = none → (CometLogger.getstate lg)._experiment_key = none) ∧
    (∀ e, lg._experiment = some e →
      (CometLogger.getstate lg)._experiment_key = some e.id ∧
      ExpHandle.idOf (CometLogger.experiment c 0 (CometLogger.getstate lg)).2.1 =
        some e.id) := by
  refine ⟨rfl, ?_, ?_⟩
  · intro hnone
    simp [CometLogger.getstate, hnone]
  · intro e he
    have hkey : (CometLogger.getstate lg)._experiment_key = some e.id := by
      simp [CometLogger.getstate, he]
    refine ⟨hkey, ?_⟩
    have hexp : (CometLogger.getstate lg)._experiment = none := rfl
    rw [CometLogger.experiment]
    simp only [ne_eq, not_true_eq_false, if_false, hexp]
    rw [CometLogger.startExperiment]
    simp only [ExpHandle.idOf]
    exact congrArg some (hc.1 _ e.id (by rw [startArgsOf, hkey]))

/-- An adapter holding a live session with key `"live-key"`. -/
def lgLive : CometLogger :=
  { lgNoSession with
    _experiment := some { id := "live-key", project_name := none, alive := true } }

theorem C1_witness :
    (CometLogger.getstate lgLive)._experiment = none ∧
    (CometLogger.getstate lgLive)._experiment_key = some "live-key" ∧
    ExpHandle.idOf
        (CometLogger.experiment demoClient 0 (CometLogger.getstate lgLive)).2.1 =
      some "live-key" := by
  have h := (C1_getstate_roundtrip demoClient demoClient_honest lgLive).2.2
    { id := "live-key", project_name := none, alive := true } rfl
  exact ⟨(C1_getstate_roundtrip demoClient demoClient_honest lgLive).1, h.1, h.2⟩

/-! ## Claim C9: the `experiment` accessor -/

/-- Whether the adapter currently caches a live session handle (the guard
on line 261). -/
def CometLogger.hasLive (lg : CometLogger) : Bool :=
  match lg._experiment with
  | some e => e.alive
  | none => false

/-- The accessor contract on the success path (adapter states whose
credential attribute is assigned, by `experimentRun_agrees`): on the
primary process it returns the cached handle unchanged (no client calls,
no state change) whenever one exists and is live; otherwise it performs
exactly one session-start call with the resolved credential, project, key,
mode and passthrough options, tags the new session with the static
provenance marker, caches it and returns it. -/
lemma experiment_accessor_contract (c : Client) (lg : CometLogger) :
    (∀ e, lg._experiment = some e → e.alive = true →
      CometLogger.experiment c 0 lg = (lg, ExpHandle.real e, [])) ∧
    (lg.hasLive = false →
      CometLogger.experiment c 0 lg =
        ({ lg with _experiment := some (c.start (startArgsOf lg)) },
         ExpHandle.real (c.start (startArgsOf lg)),
         [ClientCall.start (startArgsOf lg),
          ClientCall.logOther (c.start (startArgsOf lg)).id
            "Created from" "pytorch-lightning"])) := by
  constructor
  · intro e he halive
    rw [CometLogger.experiment]
    simp [he, halive]
  · intro hdead
    rw [CometLogger.experiment]
    cases he : lg._experiment with
    | none => simp [CometLogger.startExperiment]
    | some e =>
      have : e.alive = false := by
        rw [CometLogger.hasLive, he] at hdead
        exact hdead
      simp [this, CometLogger.startExperiment]

/-- The adapter the directory-only constructor branch (lines 235-237)
produces from `envNone` and `argsDir`: offline mode, save directory set,
and — crucially — no `api_key` attribute, since that branch never assigns
it and the annotation on line 210 creates none. -/
def lgDirOnly : CometLogger :=
  { api_key := none, mode := Mode.offline, _save_dir := some "/tmp/logs",
    _project_name := none, _experiment_key := some "guid-0",
    _experiment_name := none, pfx := "", _kwargs := [], _experiment := none }

/-- C9: at the failing input — the directory-only (offline) adapter that
`CometLogger(save_dir="/tmp/logs")` builds when no credential resolves, on
the primary process, with no cached handle — the `experiment` accessor
raises `AttributeError` at the `self.api_key` read on line 273 instead of
creating a session: the constructor branch on lines 235-237 never assigns
the attribute.  This contradicts the claim's session-creation contract and
the class docstring's own offline-mode usage (lines 72-85), which
constructs the logger with only `save_dir` and hands it to a `Trainer`. -/
theorem C9_offline_accessor_raises :
    CometLogger.init envNone argsDir = Except.ok lgDirOnly ∧
    lgDirOnly.api_key = none ∧
    lgDirOnly._experiment = none ∧
    CometLogger.experimentRun demoClient 0 lgDirOnly =
      Except.error (PyError.attributeError "api_key") :=
  ⟨rfl, rfl, rfl, rfl⟩

/-! ## Helper lemmas on the accessor and `finalize` -/

/-- On the primary process the accessor always hands back a real handle and
caches exactly that handle. -/
lemma experiment_zero_real (c : Client) (lg : CometLogger) :
    ∃ e t lg2, CometLogger.experiment c 0 lg = (lg2, ExpHandle.real e, t) ∧
      lg2._experiment = some e := by
  rw [CometLogger.experiment]
  simp only [ne_eq, not_true_eq_false, if_false]
  cases he : lg._experiment with
  | none => exact ⟨_, _, _, rfl, by simp [CometLogger.startExperiment]⟩
  | some e =>
    cases ha : e.alive with
    | true => exact ⟨e, [], lg, by simp [ha], he⟩
    | false =>
      refine ⟨c.start (startArgsOf lg),
        [ClientCall.start (startArgsOf lg),
         ClientCall.logOther (c.start (startArgsOf lg)).id
           "Created from" "pytorch-lightning"],
        { lg with _experiment := some (c.start (startArgsOf lg)) }, ?_, rfl⟩
      simp [ha, CometLogger.startExperiment]

/-- On a non-primary process the accessor does nothing. -/
lemma experiment_rank_ne (c : Client) (rank : Nat) (lg : CometLogger)
    (h : rank ≠ 0) :
    CometLogger.experiment c rank lg = (lg, ExpHandle.dummy, []) := by
  rw [CometLogger.experiment, if_pos h]

/-- After `finalize` on the primary process the cached handle is cleared. -/
lemma finalize_clears (c : Client) (lg : CometLogger) (s : String) :
    (CometLogger.finalize c 0 lg s).1._experiment = none := by
  rw [CometLogger.finalize]
  simp only [ne_eq, not_true_eq_false, if_false]
  cases he : lg._experiment with
  | none => exact he
  | some e =>
    obtain ⟨e2, t, lg2, heq, _⟩ := experiment_zero_real c lg
    rw [heq]
    simp [CometLogger.reset_experiment]

/-! ## Claim C7: `finalize` is a no-op on a cleared handle -/

/-- C7: `finalize` performs no client calls and changes no adapter state
whenever the cached handle is `None`; with a live cached session the first
call ends the session and clears the handle; and a second `finalize`
immediately after any `finalize` does nothing. -/
theorem C7_finalize_idempotent (c : Client) (rank : Nat) (lg : CometLogger)
    (s1 s2 : String) :
    (lg._experiment = none → CometLogger.finalize c rank lg s1 = (lg, [])) ∧
    (∀ e, lg._experiment = some e → e.alive = true →
      CometLogger.finalize c 0 lg s1 =
        ({ lg with _experiment := none }, [ClientCall.endExp e.id])) ∧
    (CometLogger.finalize c rank (CometLogger.finalize c rank lg s1).1 s2 =
      ((CometLogger.finalize c rank lg s1).1, [])) := by
  refine ⟨?_, ?_, ?_⟩
  · intro hnone
    rw [CometLogger.finalize]
    cases Nat.eq_zero_or_pos rank with
    | inl h0 => subst h0; simp [hnone]
    | inr hpos => rw [if_pos (Nat.pos_iff_ne_zero.mp hpos)]
  · intro e he halive
    rw [CometLogger.finalize]
    simp only [ne_eq, not_true_eq_false, if_false, he]
    have hx : CometLogger.experiment c 0 lg = (lg, ExpHandle.real e, []) := by
      rw [CometLogger.experiment]
      simp [he, halive]
    rw [hx]
    simp [CometLogger.reset_experiment]
  · cases Nat.eq_zero_or_pos rank with
    | inl h0 =>
      subst h0
      have hclear := finalize_clears c lg s1
      rw [CometLogger.finalize]
      simp only [ne_eq, not_true_eq_false, if_false, hclear]
    | inr hpos =>
      have hne := Nat.pos_iff_ne_zero.mp hpos
      rw [CometLogger.finalize, if_pos hne, CometLogger.finalize, if_pos hne]

theorem C7_witness :
    CometLogger.finalize demoClient 0 lgNoSession "success" = (lgNoSession, []) ∧
    CometLogger.finalize demoClient 0 lgLive "success" =
      ({ lgLive with _experiment := none }, [ClientCall.endExp "live-key"]) ∧
    CometLogger.finalize demoClient 0
        (CometLogger.finalize demoClient 0 lgLive "success").1 "success" =
      ((CometLogger.finalize demoClient 0 lgLive "success").1, []) :=
  ⟨(C7_finalize_idempotent demoClient 0 lgNoSession "success" "x").1 rfl,
   (C7_finalize_idempotent demoClient 0 lgLive "success" "x").2.1
     { id := "live-key", project_name := none, alive := true } rfl rfl,
   (C7_finalize_idempotent demoClient 0 lgLive "success" "success").2.2⟩

/-! ## Claim C8: non-primary processes perform no client calls -/

/-- A successful construction leaves the experiment cache empty. -/
lemma init_experiment_none (env : InitEnv) (a : InitArgs) (lg : CometLogger)
    (h : CometLogger.init env a = Except.ok lg) : lg._experiment = none := by
  cases hav : env.comet_available with
  | false => simp [CometLogger.init, hav] at h
  | true =>
    cases hk : (pyOr a.api_key env.config_api_key).isSome <;>
      cases hs : a.save_dir.isSome <;>
        simp [CometLogger.init, hav, hk, hs] at h <;> simp [← h]

/-- `log_graph` never changes the adapter state. -/
lemma log_graph_fst (lg : CometLogger) (m : String) (ia : Option MVal) :
    (CometLogger.log_graph lg m ia).1 = lg := by
  rw [CometLogger.log_graph]
  cases lg._experiment <;> rfl

/-- On a non-primary process every reachable adapter state has an empty
experiment cache: construction and unpickling produce one, and no operation
run at non-zero rank ever fills it. -/
lemma reachable_experiment_none (c : Client) (rank : Nat) (hr : rank ≠ 0)
    (lg : CometLogger) (h : Reachable c rank lg) : lg._experiment = none := by
  induction h with
  | ofInit env a lg hinit => exact init_experiment_none env a lg hinit
  | ofUnpickle lg => rfl
  | ofExperiment lg hreach ih => rw [experiment_rank_ne c rank lg hr]; exact ih
  | ofReset lg hreach ih => rfl
  | ofHyper lg p hreach ih => rw [CometLogger.log_hyperparams, if_pos hr]; exact ih
  | ofMetrics lg σ r step hreach ih => rw [CometLogger.log_metrics, if_pos hr]; exact ih
  | ofGraph lg m ia hreach ih => rw [log_graph_fst]; exact ih
  | ofFinalize lg s hreach ih => rw [CometLogger.finalize, if_pos hr]; exact ih

/-- C8: on a non-primary process (global rank ≠ 0), each of
`log_hyperparams`, `log_metrics`, `log_graph` and `finalize`, applied to
any adapter state reachable on that process, performs zero calls into the
remote client and leaves the adapter state (and the metrics store)
unchanged. -/
theorem C8_non_primary_noops (c : Client) (rank : Nat) (lg : CometLogger)
    (hr : rank ≠ 0) (hreach : Reachable c rank lg)
    (p : HParams) (σ : Store) (r : Nat) (step : Option Int)
    (m : String) (ia : Option MVal) (s : String) :
    CometLogger.log_hyperparams c rank lg p = (lg, []) ∧
    CometLogger.log_metrics c rank lg σ r step = (lg, σ, []) ∧
    CometLogger.log_graph lg m ia = (lg, []) ∧
    CometLogger.finalize c rank lg s = (lg, []) := by
  have hnone := reachable_experiment_none c rank hr lg hreach
  refine ⟨?_, ?_, ?_, ?_⟩
  · rw [CometLogger.log_hyperparams, if_pos hr]
  · rw [CometLogger.log_metrics, if_pos hr]
  · rw [CometLogger.log_graph, hnone]
  · rw [CometLogger.finalize, if_pos hr]

theorem C8_witness :
    CometLogger.log_hyperparams demoClient 1 lgBoth (HParams.dict [("lr", "0.1")]) =
      (lgBoth, []) ∧
    CometLogger.log_metrics demoClient 1 lgBoth [[("loss", MVal.num 1)]] 0 (some 3) =
      (lgBoth, [[("loss", MVal.num 1)]], []) ∧
    CometLogger.log_graph lgBoth "model" none = (lgBoth, []) ∧
    CometLogger.finalize demoClient 1 lgBoth "success" = (lgBoth, []) :=
  C8_non_primary_noops demoClient 1 lgBoth (by decide)
    (Reachable.ofInit envCred argsDir lgBoth rfl)
    (HParams.dict [("lr", "0.1")]) [[("loss", MVal.num 1)]] 0 (some 3)
    "model" none "success"

/-! ## Helper lemmas on the store and on dict processing -/

lemma getD_append_length (l : List PyDict) (x : PyDict) :
    (l ++ [x]).getD l.length [] = x := by
  induction l with
  | nil => rfl
  | cons a l ih => exact ih

lemma getD_append_lt (l l2 : List PyDict) (i : Nat) (h : i < l.length) :
    (l ++ l2).getD i [] = l.getD i [] := by
  induction l generalizing i with
  | nil => cases h
  | cons a l ih =>
    cases i with
    | zero => rfl
    | succ j => exact ih j (Nat.lt_of_succ_lt_succ h)

lemma getD_set_self (l : List PyDict) (i : Nat) (x : PyDict)
    (h : i < l.length) : (l.set i x).getD i [] = x := by
  induction l generalizing i with
  | nil => cases h
  | cons a l ih =>
    cases i with
    | zero => rfl
    | succ j => exact ih j (Nat.lt_of_succ_lt_succ h)

lemma getD_set_ne (l : List PyDict) (i j : Nat) (x : PyDict)
    (h : j ≠ i) : (l.set i x).getD j [] = l.getD j [] := by
  induction l generalizing i j with
  | nil => rfl
  | cons a l ih =>
    cases i with
    | zero =>
      cases j with
      | zero => exact absurd rfl h
      | succ j2 => rfl
    | succ i2 =>
      cases j with
      | zero => rfl
      | succ j2 => exact ih i2 j2 (fun hh => h (congrArg Nat.succ hh))

/-- Looking a key up after the tensor-conversion loop yields the converted
stored value. -/
lemma lookup_cpuDetachAll (d : PyDict) (k : String) :
    dictLookup (cpuDetachAll d) k = Option.map detachVal (dictLookup d k) := by
  induction d with
  | nil => rfl
  | cons kv d ih =>
    rw [cpuDetachAll] at ih ⊢
    rw [List.map_cons, dictLookup, dictLookup]
    by_cases hk : kv.1 = k
    · simp [hk]
    · simp [hk, ih]

/-- The converted value of any metric is detached and on host memory. -/
lemma hostDetached_detachVal (v : MVal) : (detachVal v).hostDetached = true := by
  cases v with
  | num x => rfl
  | tensor d c g => rfl

/-- A value stored in the converted dict is the conversion of some value. -/
lemma mem_cpuDetachAll (d : PyDict) (k : String) (v : MVal)
    (h : (k, v) ∈ cpuDetachAll d) : ∃ v0, v = detachVal v0 := by
  rw [cpuDetachAll] at h
  obtain ⟨⟨k0, v0⟩, _, heq⟩ := List.mem_map.mp h
  exact ⟨v0, (congrArg Prod.snd heq).symm⟩

/-- A prefixed metric name is never the literal string `"epoch"`: it
contains the join character `-`, which `"epoch"` does not. -/
lemma join_ne_epoch (p k : String) : p ++ LOGGER_JOIN_CHAR ++ k ≠ "epoch" := by
  intro h
  have hd : ('-' : Char) ∈ (p ++ LOGGER_JOIN_CHAR ++ k).data := by
    rw [String.data_append, String.data_append]
    exact List.mem_append.mpr (Or.inl (List.mem_append.mpr (Or.inr (by decide))))
  rw [h] at hd
  exact absurd hd (by decide)

/-- No key of the dict obtained by popping `"epoch"` and then applying the
prefix is the literal string `"epoch"`. -/
lemma sent_key_ne_epoch (d : PyDict) (p : String) (k : String) (v : MVal)
    (h : (k, v) ∈ add_pfx (d.filter (fun kv => kv.1 ≠ "epoch")) p LOGGER_JOIN_CHAR) :
    k ≠ "epoch" := by
  rw [add_pfx] at h
  by_cases hp : p = ""
  · rw [if_pos hp] at h
    have := (List.mem_filter.mp h).2
    exact of_decide_eq_true this
  · rw [if_neg hp] at h
    obtain ⟨⟨k0, v0⟩, _, heq⟩ := List.mem_map.mp h
    have hk : p ++ LOGGER_JOIN_CHAR ++ k0 = k := congrArg Prod.fst heq
    rw [← hk]
    exact join_ne_epoch p k0

/-- Values are untouched by popping a key and applying the prefix: any value
of the resulting dict was a value of `cpuDetachAll d`. -/
lemma mem_sent_value (d : PyDict) (p : String) (k : String) (v : MVal)
    (h : (k, v) ∈ add_pfx ((cpuDetachAll d).filter (fun kv => kv.1 ≠ "epoch")) p
          LOGGER_JOIN_CHAR) :
    ∃ k1, (k1, v) ∈ cpuDetachAll d := by
  rw [add_pfx] at h
  by_cases hp : p = ""
  · rw [if_pos hp] at h
    exact ⟨k, (List.mem_filter.mp h).1⟩
  · rw [if_neg hp] at h
    obtain ⟨⟨k0, v0⟩, hmem, heq⟩ := List.mem_map.mp h
    have hv : v0 = v := congrArg Prod.snd heq
    exact ⟨k0, hv ▸ (List.mem_filter.mp hmem).1⟩

/-- The calls emitted by the `experiment` accessor are session-start and
provenance-tagging calls only; none is a metric-logging call. -/
lemma experiment_trace_no_logMetrics (c : Client) (rank : Nat) (lg : CometLogger)
    (eid : String) (sent : PyDict) (st : Option Int) (ep : Option MVal) :
    ClientCall.logMetrics eid sent st ep ∉ (CometLogger.experiment c rank lg).2.2 := by
  rw [CometLogger.experiment]
  by_cases hr : rank ≠ 0
  · rw [if_pos hr]
    exact List.not_mem_nil _
  · rw [if_neg hr]
    cases lg._experiment with
    | none => rw [CometLogger.startExperiment]; intro h; simp at h
    | some e =>
      cases he : e.alive <;> simp [he, CometLogger.startExperiment]

/-- Evaluation of `log_metrics` on the primary process: the experiment is
obtained through the accessor, the store gains the processed copy (the
caller's dict object itself is never written), and one metric-logging call
carrying the prefixed epoch-free dict, the step and the popped epoch value
is appended to the accessor's calls. -/
lemma log_metrics_zero_shape (c : Client) (lg : CometLogger) (σ : Store)
    (rref : Nat) (step : Option Int) :
    ∃ e,
      (CometLogger.experiment c 0 lg).2.1 = ExpHandle.real e ∧
      CometLogger.log_metrics c 0 lg σ rref step =
        ((CometLogger.experiment c 0 lg).1,
         Store.set (Store.set (σ ++ [Store.get σ rref]) σ.length
             (cpuDetachAll (Store.get σ rref))) σ.length
           ((cpuDetachAll (Store.get σ rref)).filter (fun kv => kv.1 ≠ "epoch")),
         (CometLogger.experiment c 0 lg).2.2 ++
           [ClientCall.logMetrics e.id
             (add_pfx ((cpuDetachAll (Store.get σ rref)).filter
                 (fun kv => kv.1 ≠ "epoch")) lg.pfx LOGGER_JOIN_CHAR)
             step
             (dictLookup (cpuDetachAll (Store.get σ rref)) "epoch")]) := by
  obtain ⟨e, t, lg2, hx, _⟩ := experiment_zero_real c lg
  refine ⟨e, by rw [hx], ?_⟩
  rw [CometLogger.log_metrics]
  simp only [ne_eq, not_true_eq_false, if_false]
  rw [hx]
  simp only [Store.alloc, Store.get, Store.set, dictPop]
  rw [getD_append_length, getD_set_self, getD_set_self] <;> simp

/-! ## Claim C5: the reserved `"epoch"` key -/

/-- C5: on the primary process, the mapping forwarded to the remote
client's metric-logging call never contains a key literally named
`"epoch"` (even with a non-empty configured key prefix), and the epoch
value found in the input mapping (tensor-converted, as the loop runs before
the pop) is forwarded only via the separate epoch parameter. -/
theorem C5_epoch_key_never_forwarded (c : Client) (lg : CometLogger)
    (σ : Store) (rref : Nat) (step : Option Int) (eid : String)
    (sent : PyDict) (st : Option Int) (ep : Option MVal)
    (hmem : ClientCall.logMetrics eid sent st ep ∈
      (CometLogger.log_metrics c 0 lg σ rref step).2.2) :
    sent.all (fun kv => !(kv.1 == "epoch")) = true ∧
    ep = Option.map detachVal (dictLookup (Store.get σ rref) "epoch") := by
  obtain ⟨e, hhandle, heq⟩ := log_metrics_zero_shape c lg σ rref step
  rw [heq, List.mem_append] at hmem
  cases hmem with
  | inl h => exact absurd h (experiment_trace_no_logMetrics c 0 lg eid sent st ep)
  | inr h =>
    simp only [List.mem_singleton, ClientCall.logMetrics.injEq] at h
    obtain ⟨-, hsent, -, hep⟩ := h
    constructor
    · rw [hsent, List.all_eq_true]
      intro kv hkv
      simp only [Bool.not_eq_true', beq_eq_false_iff_ne, ne_eq]
      exact sent_key_ne_epoch (cpuDetachAll (Store.get σ rref)) lg.pfx kv.1 kv.2 hkv
    · rw [hep, lookup_cpuDetachAll]

/-- The caller's metrics dict used by the witnesses: a graph-attached GPU
tensor under `"loss"` and a number under the reserved key `"epoch"`. -/
def σW : Store := [[("loss", MVal.tensor 5 false true), ("epoch", MVal.num 7)]]

theorem C5_witness :
    ([(("loss" : String), MVal.tensor 5 true false)].all
        (fun kv => !(kv.1 == "epoch"))) = true ∧
    (some (MVal.num 7) : Option MVal) =
      Option.map detachVal (dictLookup (Store.get σW 0) "epoch") :=
  C5_epoch_key_never_forwarded demoClient lgLive σW 0 (some 1) "live-key"
    [("loss", MVal.tensor 5 true false)] (some 1) (some (MVal.num 7)) (by decide)

/-! ## Claim C6: tensors reach the client detached and on host memory -/

/-- C6: on the primary process, every value in the mapping forwarded to the
remote client's metric-logging call is detached and resident on host
memory: tensor values have been rewritten to `val.cpu().detach()` before
the call, and plain numbers carry no device or graph. -/
theorem C6_values_detached_on_host (c : Client) (lg : CometLogger)
    (σ : Store) (rref : Nat) (step : Option Int) (eid : String)
    (sent : PyDict) (st : Option Int) (ep : Option MVal)
    (hmem : ClientCall.logMetrics eid sent st ep ∈
      (CometLogger.log_metrics c 0 lg σ rref step).2.2) :
    sent.all (fun kv => kv.2.hostDetached) = true := by
  obtain ⟨e, hhandle, heq⟩ := log_metrics_zero_shape c lg σ rref step
  rw [heq, List.mem_append] at hmem
  cases hmem with
  | inl h => exact absurd h (experiment_trace_no_logMetrics c 0 lg eid sent st ep)
  | inr h =>
    simp only [List.mem_singleton, ClientCall.logMetrics.injEq] at h
    obtain ⟨-, hsent, -, -⟩ := h
    rw [hsent, List.all_eq_true]
    intro kv hkv
    obtain ⟨k1, hk1⟩ := mem_sent_value (Store.get σ rref) lg.pfx kv.1 kv.2 hkv
    obtain ⟨v0, hv0⟩ := mem_cpuDetachAll _ _ _ hk1
    rw [hv0]
    exact hostDetached_detachVal v0

theorem C6_witness :
    ([(("loss" : String), MVal.tensor 5 true false)].all
        (fun kv => kv.2.hostDetached)) = true :=
  C6_values_detached_on_host demoClient lgLive σW 0 (some 1) "live-key"
    [("loss", MVal.tensor 5 true false)] (some 1) (some (MVal.num 7)) (by decide)

/-! ## Claim C10: the caller's mapping is never mutated -/

/-- C10: `log_metrics` never mutates the caller's metrics dict: the dict
object the caller passed in holds exactly the same keys and values after
the call (including any `"epoch"` entry), at any rank — the adapter pops
the epoch key and converts tensors only on an internal copy. -/
theorem C10_caller_dict_unchanged (c : Client) (rank : Nat)
    (lg : CometLogger) (σ : Store) (rref : Nat) (step : Option Int)
    (h : rref < σ.length) :
    Store.get (CometLogger.log_metrics c rank lg σ rref step).2.1 rref =
      Store.get σ rref := by
  by_cases hr : rank = 0
  · subst hr
    obtain ⟨e, -, heq⟩ := log_metrics_zero_shape c lg σ rref step
    rw [heq]
    have hne : rref ≠ σ.length := Nat.ne_of_lt h
    simp only [Store.get, Store.set]
    rw [getD_set_ne _ _ _ _ hne, getD_set_ne _ _ _ _ hne, getD_append_lt _ _ _ h]
  · rw [CometLogger.log_metrics, if_pos hr]

theorem C10_witness :
    (0 : Nat) < σW.length ∧
    Store.get (CometLogger.log_metrics demoClient 0 lgLive σW 0 (some 1)).2.1 0 =
      Store.get σW 0 :=
  ⟨by decide, C10_caller_dict_unchanged demoClient 0 lgLive σW 0 (some 1) (by decide)⟩
